import Mathlib

/-!
Verification of the OSC99 scalar codec (`src/Osc99/OscCommon.h`).

Shallow embedding of the OSC99 common definitions: the 32-bit and 64-bit
argument unions (`OscArgument32`, `OscTimeTag`, `OscArgument64`), the
`RgbaColour` and `MidiMessage` packed structs, the `Double64` typedef
selection, and the OSC-contents classification predicates.

Modelling choices:

* A union's state is its sequence of physical bytes, offset-indexed from
  offset 0 (a `List Nat`, each element a byte value).  The packed structs
  have their fields at consecutive offsets in declaration order
  (`__attribute__((__packed__))` / `#pragma pack(1)` in the source).
* The header supports two build configurations, selected by the
  `LITTLE_ENDIAN_PLATFORM` macro (defined at `OscCommon.h:26` in the shipped
  configuration); `Endianness` ranges over both.  As the header requires,
  the configuration is assumed to match the host byte order, so the same
  `Endianness` value governs both the `#ifdef` branch chosen for the structs
  and the layout the host gives to `int32_t` / `uint64_t` / `uint32_t`.
* `int32_t` and `float` values are modelled by their 32-bit patterns (a
  `Nat < 2^32`), `uint64_t` and `Double64` by their 64-bit patterns: the
  codec only ever moves their bytes, it never does arithmetic on them, so
  the byte-pattern model is exact.
-/

namespace Osc99

/-- The two build configurations of `OscCommon.h`: `little` when the
`LITTLE_ENDIAN_PLATFORM` macro is defined (`OscCommon.h:26`), `big` when it
is commented out.  The header requires the macro to match the host byte
order, so the same value also fixes how the host stores multi-byte
integers. -/
inductive Endianness
  | little
  | big
deriving DecidableEq

/-- Physical bytes of an `int32_t` / `uint32_t` / `float` bit pattern `n` as
the host stores it: least-significant byte at offset 0 on a little-endian
host, most-significant byte at offset 0 on a big-endian host. -/
def store32 (e : Endianness) (n : Nat) : List Nat :=
  match e with
  | .little => [n % 256, n / 256 % 256, n / 65536 % 256, n / 16777216 % 256]
  | .big    => [n / 16777216 % 256, n / 65536 % 256, n / 256 % 256, n % 256]

/-- The 32-bit pattern the host reads back from 4 physical bytes. -/
def load32 (e : Endianness) (m : List Nat) : Nat :=
  match e, m with
  | .little, [b0, b1, b2, b3] => b0 + 256 * b1 + 65536 * b2 + 16777216 * b3
  | .big,    [b0, b1, b2, b3] => b3 + 256 * b2 + 65536 * b1 + 16777216 * b0
  | _, _ => 0

/-- Physical bytes of a `uint64_t` / `Double64` bit pattern as the host
stores it. -/
def store64 (e : Endianness) (n : Nat) : List Nat :=
  match e with
  | .little =>
      [n % 256, n / 256 % 256, n / 65536 % 256, n / 16777216 % 256,
       n / 4294967296 % 256, n / 1099511627776 % 256,
       n / 281474976710656 % 256, n / 72057594037927936 % 256]
  | .big =>
      [n / 72057594037927936 % 256, n / 281474976710656 % 256,
       n / 1099511627776 % 256, n / 4294967296 % 256,
       n / 16777216 % 256, n / 65536 % 256, n / 256 % 256, n % 256]

/-- The 64-bit pattern the host reads back from 8 physical bytes. -/
def load64 (e : Endianness) (m : List Nat) : Nat :=
  match e, m with
  | .little, [b0, b1, b2, b3, b4, b5, b6, b7] =>
      b0 + 256 * b1 + 65536 * b2 + 16777216 * b3 + 4294967296 * b4 +
        1099511627776 * b5 + 281474976710656 * b6 + 72057594037927936 * b7
  | .big, [b0, b1, b2, b3, b4, b5, b6, b7] =>
      b7 + 256 * b6 + 65536 * b5 + 16777216 * b4 + 4294967296 * b3 +
        1099511627776 * b2 + 281474976710656 * b1 + 72057594037927936 * b0
  | _, _ => 0

/-- Field `byteK` of `OscArgument32.byteStruct` (`OscCommon.h:104-120`) read
from the union's physical bytes `m`.  In the little-endian configuration the
declaration order is `byte0 /- LSB -/, byte1, byte2, byte3 /- MSB -/`, so
`byteK` sits at offset `k`; in the big-endian configuration the order is
reversed, so `byteK` sits at offset `3 - k`. -/
def byteStructGet32 (e : Endianness) (m : List Nat) (k : Nat) : Nat :=
  match e with
  | .little => m.getD k 0
  | .big    => m.getD (3 - k) 0

/-- Field `byteK` of the `byteStruct` shared by `OscTimeTag`
(`OscCommon.h:139-163`) and `OscArgument64` (`OscCommon.h:186-210`): offset
`k` in the little-endian configuration, offset `7 - k` in the big-endian
one. -/
def byteStructGet64 (e : Endianness) (m : List Nat) (k : Nat) : Nat :=
  match e with
  | .little => m.getD k 0
  | .big    => m.getD (7 - k) 0

/-- Embeds `RgbaColour` (`OscCommon.h:57-71`): four one-byte fields. -/
structure RgbaColour where
  red : Nat
  green : Nat
  blue : Nat
  alpha : Nat
deriving DecidableEq

/-- Physical bytes of an `RgbaColour` stored in the 4-byte slot.  The
little-endian configuration declares `alpha /- LSB -/, blue, green,
red /- MSB -/` (`OscCommon.h:58-63`), the big-endian configuration declares
`red, green, blue, alpha` (`OscCommon.h:65-70`). -/
def storeRgba (e : Endianness) (c : RgbaColour) : List Nat :=
  match e with
  | .little => [c.alpha, c.blue, c.green, c.red]
  | .big    => [c.red, c.green, c.blue, c.alpha]

/-- The `RgbaColour` view read back from the union's physical bytes. -/
def loadRgba (e : Endianness) (m : List Nat) : RgbaColour :=
  match e, m with
  | .little, [b0, b1, b2, b3] => ⟨b3, b2, b1, b0⟩
  | .big,    [b0, b1, b2, b3] => ⟨b0, b1, b2, b3⟩
  | _, _ => ⟨0, 0, 0, 0⟩

/-- Embeds `MidiMessage` (`OscCommon.h:78-92`): four one-byte fields. -/
structure MidiMessage where
  portID : Nat
  status : Nat
  data1 : Nat
  data2 : Nat
deriving DecidableEq

/-- Physical bytes of a `MidiMessage` stored in the 4-byte slot: the
little-endian configuration declares `data2 /- LSB -/, data1, status,
portID /- MSB -/`, the big-endian one the reverse. -/
def storeMidi (e : Endianness) (mm : MidiMessage) : List Nat :=
  match e with
  | .little => [mm.data2, mm.data1, mm.status, mm.portID]
  | .big    => [mm.portID, mm.status, mm.data1, mm.data2]

/-- The `MidiMessage` view read back from the union's physical bytes. -/
def loadMidi (e : Endianness) (m : List Nat) : MidiMessage :=
  match e, m with
  | .little, [b0, b1, b2, b3] => ⟨b3, b2, b1, b0⟩
  | .big,    [b0, b1, b2, b3] => ⟨b0, b1, b2, b3⟩
  | _, _ => ⟨0, 0, 0, 0⟩

/-- Embeds `OscTimeTag.dwordStruct` (`OscCommon.h:133-137`): `uint32_t fraction`
declared first (offsets 0-3), `uint32_t seconds` second (offsets 4-7), each
stored with the host's byte order.  Unlike the `byteStruct`s, this struct is
not conditioned on `LITTLE_ENDIAN_PLATFORM`. -/
def storeTimeTag (e : Endianness) (seconds fraction : Nat) : List Nat :=
  store32 e fraction ++ store32 e seconds

/-- The `(seconds, fraction)` pair read back from a time tag's 8 physical
bytes through `dwordStruct`. -/
def loadTimeTag (e : Endianness) (m : List Nat) : Nat × Nat :=
  (load32 e (m.drop 4), load32 e (m.take 4))

/-- Modelled from the spec: the wire emission of a 4-byte slot.  The
serializer (`OscMessage.c`, not under `src/`) writes the slot to the packet
most-significant byte first; per the spec the wire order is network /
big-endian, so wire position `j` carries `byteStruct.byte(3-j)`. -/
def wire32 (e : Endianness) (m : List Nat) : List Nat :=
  [byteStructGet32 e m 3, byteStructGet32 e m 2,
   byteStructGet32 e m 1, byteStructGet32 e m 0]

/-- Modelled from the spec: the deserializer (not under `src/`) fills the
union from 4 wire bytes, assigning wire position `j` to
`byteStruct.byte(3-j)`; this returns the union's physical bytes. -/
def unwire32 (e : Endianness) (w : List Nat) : List Nat :=
  match e, w with
  | .little, [w0, w1, w2, w3] => [w3, w2, w1, w0]
  | .big,    [w0, w1, w2, w3] => [w0, w1, w2, w3]
  | _, _ => [0, 0, 0, 0]

/-- Modelled from the spec: the wire emission of an 8-byte slot,
most-significant byte first. -/
def wire64 (e : Endianness) (m : List Nat) : List Nat :=
  [byteStructGet64 e m 7, byteStructGet64 e m 6, byteStructGet64 e m 5,
   byteStructGet64 e m 4, byteStructGet64 e m 3, byteStructGet64 e m 2,
   byteStructGet64 e m 1, byteStructGet64 e m 0]

/-- Modelled from the spec: the deserializer fills the 8-byte union from 8
wire bytes, wire position `j` going to `byteStruct.byte(7-j)`. -/
def unwire64 (e : Endianness) (w : List Nat) : List Nat :=
  match e, w with
  | .little, [w0, w1, w2, w3, w4, w5, w6, w7] => [w7, w6, w5, w4, w3, w2, w1, w0]
  | .big,    [w0, w1, w2, w3, w4, w5, w6, w7] => [w0, w1, w2, w3, w4, w5, w6, w7]
  | _, _ => [0, 0, 0, 0, 0, 0, 0, 0]

/-- The `encode32` operation for the `int32` view: store the 32-bit pattern
in the union, emit the slot's wire bytes. -/
def encodeInt32 (e : Endianness) (n : Nat) : List Nat :=
  wire32 e (store32 e n)

/-- The `decode32` operation for the `int32` view: fill the union from the
wire bytes, read the `int32` view. -/
def decodeInt32 (e : Endianness) (w : List Nat) : Nat :=
  load32 e (unwire32 e w)

/-- The `encode32` operation for the `float32` view; a float is modelled by
its IEEE-754 bit pattern, which the union stores exactly like the `int32`
pattern. -/
def encodeFloat32 (e : Endianness) (bits : Nat) : List Nat :=
  wire32 e (store32 e bits)

/-- The `decode32` operation for the `float32` view (bit-pattern model). -/
def decodeFloat32 (e : Endianness) (w : List Nat) : Nat :=
  load32 e (unwire32 e w)

/-- The `encode32` operation for the `rgbaColour` view: field-order
placement, no byte reversal beyond the union layout itself. -/
def encodeRgba (e : Endianness) (c : RgbaColour) : List Nat :=
  wire32 e (storeRgba e c)

/-- The `decode32` operation for the `rgbaColour` view. -/
def decodeRgba (e : Endianness) (w : List Nat) : RgbaColour :=
  loadRgba e (unwire32 e w)

/-- The `encode32` operation for the `midiMessage` view. -/
def encodeMidi (e : Endianness) (mm : MidiMessage) : List Nat :=
  wire32 e (storeMidi e mm)

/-- The `decode32` operation for the `midiMessage` view. -/
def decodeMidi (e : Endianness) (w : List Nat) : MidiMessage :=
  loadMidi e (unwire32 e w)

/-- The `encode64` operation for the `int64` view of `OscArgument64`. -/
def encodeUInt64 (e : Endianness) (n : Nat) : List Nat :=
  wire64 e (store64 e n)

/-- The `decode64` operation for the `int64` view. -/
def decodeUInt64 (e : Endianness) (w : List Nat) : Nat :=
  load64 e (unwire64 e w)

/-- The `encode64` operation for the `double64` view (bit-pattern model). -/
def encodeDouble64 (e : Endianness) (bits : Nat) : List Nat :=
  wire64 e (store64 e bits)

/-- The `decode64` operation for the `double64` view (bit-pattern model). -/
def decodeDouble64 (e : Endianness) (w : List Nat) : Nat :=
  load64 e (unwire64 e w)

/-- The `encode64` operation for a time tag built from `(seconds, fraction)`
through `dwordStruct`. -/
def encodeTimeTag (e : Endianness) (seconds fraction : Nat) : List Nat :=
  wire64 e (storeTimeTag e seconds fraction)

/-- The `decode64` operation for the time tag view, returning
`(seconds, fraction)`. -/
def decodeTimeTag (e : Endianness) (w : List Nat) : Nat × Nat :=
  loadTimeTag e (unwire64 e w)

/-- The spec's 4-byte big-endian encoding of a 32-bit value:
most-significant byte first. -/
def beBytes32 (n : Nat) : List Nat :=
  [n / 16777216 % 256, n / 65536 % 256, n / 256 % 256, n % 256]

/-- Modelled from the spec: `oscTimeTagZero` is declared `extern` at
`OscCommon.h:216` but defined in `OscCommon.c`, which is not under `src/`;
the spec fixes it as the distinguished all-zero ("immediate") time tag, the
union holding the 64-bit value 0. -/
def oscTimeTagZero (e : Endianness) : List Nat :=
  store64 e 0

/-- Modelled from the spec: `isImmediateTimeTag` is absent from `src/`
(`OscCommon.h` has no prototype for it); the spec defines it as true iff all
8 bytes of the tag are zero. -/
def isImmediateTimeTag (m : List Nat) : Bool :=
  m.all fun b => b == 0

/-- Modelled from the spec: `OscContentsIsMessage` is declared at
`OscCommon.h:221` but its body (`OscCommon.c`) is not under `src/`; the spec
says it is true iff the first byte is `0x2F` (the character `/`), false for
an empty buffer, and never fails. -/
def OscContentsIsMessage (bs : List Nat) : Bool :=
  match bs with
  | b :: _ => b == 0x2F
  | [] => false

/-- Modelled from the spec: `OscContentsIsBundle` is declared at
`OscCommon.h:222` but its body is not under `src/`; the spec says it is true
iff the first 7 bytes equal the ASCII string `#bundle`, and a buffer shorter
than 7 bytes is treated as non-matching. -/
def OscContentsIsBundle (bs : List Nat) : Bool :=
  match bs with
  | a :: b :: c :: d :: e :: f :: g :: _ =>
      a == 0x23 && b == 0x62 && c == 0x75 && d == 0x6E &&
        e == 0x64 && f == 0x6C && g == 0x65
  | _ => false

/-- A platform, as far as `OscCommon.h:171-175` can observe it: the value of
`DBL_MANT_DIG` and the bit widths of `double` and `long double`. -/
structure Platform where
  dblMantDig : Nat
  doubleBits : Nat
  longDoubleBits : Nat
deriving DecidableEq

/-- The width in bits of the type the preprocessor conditional at
`OscCommon.h:171-175` picks for `Double64`: `double` when
`DBL_MANT_DIG == 53`, otherwise `long double` ("use long double if double is
not 64-bit").  The codomain is `Except` so that a build failure (`#error`)
could be expressed; the source has no failing branch. -/
def double64Select (p : Platform) : Except String Nat :=
  if p.dblMantDig = 53 then Except.ok p.doubleBits else Except.ok p.longDoubleBits

/-- C1 counterexample: the claim says byte 0 of the byte view is the wire's
most-significant byte; in the code `byteStruct.byte0` is the
least-significant byte (`// LSB` at `OscCommon.h:106` and `OscCommon.h:117`).
For the `int32` value 1, `byte0` is 1 while the wire's most-significant byte
is 0, in both platform configurations. -/
theorem osc_byte0_not_wire_msb :
    byteStructGet32 Endianness.little (store32 Endianness.little 1) 0 ≠
      List.getD (wire32 Endianness.little (store32 Endianness.little 1)) 0 0 ∧
    byteStructGet32 Endianness.big (store32 Endianness.big 1) 0 ≠
      List.getD (wire32 Endianness.big (store32 Endianness.big 1)) 0 0 := by
  decide

/-- C1 (amended): for every 32-bit and 64-bit argument, field `byteK` of the
byte view is the byte of numeric significance `K`, irrespective of the
platform configuration; consequently `byte3` (resp. `byte7`) is the wire's
most-significant byte and `byte0` the wire's least-significant byte. -/
theorem osc_byte_view_significance (e : Endianness) (n v k j : Nat)
    (hk : k < 4) (hj : j < 8) :
    byteStructGet32 e (store32 e n) k = n / 256 ^ k % 256 ∧
    byteStructGet64 e (store64 e v) j = v / 256 ^ j % 256 ∧
    byteStructGet32 e (store32 e n) 3 = List.getD (wire32 e (store32 e n)) 0 0 ∧
    byteStructGet32 e (store32 e n) 0 = List.getD (wire32 e (store32 e n)) 3 0 ∧
    byteStructGet64 e (store64 e v) 7 = List.getD (wire64 e (store64 e v)) 0 0 ∧
    byteStructGet64 e (store64 e v) 0 = List.getD (wire64 e (store64 e v)) 7 0 := by
  refine ⟨?_, ?_, ?_, ?_, ?_, ?_⟩
  · cases e <;> interval_cases k <;> norm_num [byteStructGet32, store32]
  · cases e <;> interval_cases j <;> norm_num [byteStructGet64, store64]
  · rfl
  · rfl
  · rfl
  · rfl

/-- Witness for `osc_byte_view_significance` at the little-endian
configuration with pattern 258, `k = j = 1`. -/
theorem osc_byte_view_significance_witness :
    byteStructGet32 Endianness.little (store32 Endianness.little 258) 1 =
      258 / 256 ^ 1 % 256 ∧
    byteStructGet64 Endianness.little (store64 Endianness.little 258) 1 =
      258 / 256 ^ 1 % 256 ∧
    byteStructGet32 Endianness.little (store32 Endianness.little 258) 3 =
      List.getD (wire32 Endianness.little (store32 Endianness.little 258)) 0 0 ∧
    byteStructGet32 Endianness.little (store32 Endianness.little 258) 0 =
      List.getD (wire32 Endianness.little (store32 Endianness.little 258)) 3 0 ∧
    byteStructGet64 Endianness.little (store64 Endianness.little 258) 7 =
      List.getD (wire64 Endianness.little (store64 Endianness.little 258)) 0 0 ∧
    byteStructGet64 Endianness.little (store64 Endianness.little 258) 0 =
      List.getD (wire64 Endianness.little (store64 Endianness.little 258)) 7 0 :=
  osc_byte_view_significance Endianness.little 258 258 1 1 (by decide) (by decide)

/-- C2: `encode32` performs no byte reversal on `RgbaColour` and
`MidiMessage`: the four named byte fields land at their declared wire
positions, in both platform configurations, and in particular
`encode32(RgbaColour{red: 0x11, green: 0x22, blue: 0x33, alpha: 0x44})` is
`[0x11, 0x22, 0x33, 0x44]`. -/
theorem osc_struct_field_order (e : Endianness) (c : RgbaColour) (mm : MidiMessage) :
    encodeRgba e c = [c.red, c.green, c.blue, c.alpha] ∧
    encodeMidi e mm = [mm.portID, mm.status, mm.data1, mm.data2] ∧
    encodeRgba e ⟨0x11, 0x22, 0x33, 0x44⟩ = [0x11, 0x22, 0x33, 0x44] := by
  cases e <;> exact ⟨rfl, rfl, rfl⟩

/-- C3 counterexample: the claim says a platform whose native `double` is
not an exactly-64-bit IEEE-754 type must fail the build.  On a platform with
`DBL_MANT_DIG = 24` and 32-bit `double` and `long double` (e.g. a DSP with
no 64-bit floating type), the conditional at `OscCommon.h:171-175` silently
selects the 32-bit `long double` for `Double64`: the result is `ok 32`, not
a build error, and the width is not 64 bits. -/
theorem osc_double64_no_build_guard :
    double64Select ⟨24, 32, 32⟩ = Except.ok 32 ∧ (32 : Nat) ≠ 64 := by
  exact ⟨rfl, by decide⟩

/-- C3 (amended): the conditional at `OscCommon.h:171-175` never fails the
build; it selects `double` exactly when `DBL_MANT_DIG == 53` and otherwise
silently substitutes `long double`, whatever its width, with no width
verification and no error. -/
theorem osc_double64_fallback (p : Platform) :
    (p.dblMantDig = 53 → double64Select p = Except.ok p.doubleBits) ∧
    (p.dblMantDig ≠ 53 → double64Select p = Except.ok p.longDoubleBits) ∧
    ∀ msg, double64Select p ≠ Except.error msg := by
  by_cases h : p.dblMantDig = 53 <;> simp [double64Select, h]

/-- Witness for `osc_double64_fallback` on an IEEE-754 platform. -/
theorem osc_double64_fallback_witness :
    double64Select ⟨53, 64, 128⟩ = Except.ok (Platform.mk 53 64 128).doubleBits :=
  (osc_double64_fallback ⟨53, 64, 128⟩).1 rfl

/-- C4: on the shipped (little-endian) configuration, encoding a time tag
built from `(seconds, fraction)` as one 8-byte value equals the 4-byte
big-endian encoding of `seconds` followed by the 4-byte big-endian encoding
of `fraction`, and the tag's 64-bit `value` view equals
`seconds * 2^32 + fraction`. -/
theorem osc_time_tag_decomposition (s f : Nat)
    (hs : s < 4294967296) (hf : f < 4294967296) :
    encodeTimeTag Endianness.little s f = beBytes32 s ++ beBytes32 f ∧
    load64 Endianness.little (storeTimeTag Endianness.little s f) =
      s * 4294967296 + f := by
  refine ⟨rfl, ?_⟩
  simp [storeTimeTag, store32, load64]
  omega

/-- Witness for `osc_time_tag_decomposition` at `(seconds, fraction) = (1, 2)`. -/
theorem osc_time_tag_decomposition_witness :
    encodeTimeTag Endianness.little 1 2 = beBytes32 1 ++ beBytes32 2 ∧
    load64 Endianness.little (storeTimeTag Endianness.little 1 2) =
      1 * 4294967296 + 2 :=
  osc_time_tag_decomposition 1 2 (by decide) (by decide)

/-- C5: decode is a left inverse of encode for every typed view of
`OscArgument32` and `OscArgument64`, in both platform configurations
(floats and doubles modelled by their bit patterns). -/
theorem osc_round_trip (e : Endianness) (n p v d s f : Nat)
    (c : RgbaColour) (mm : MidiMessage)
    (hn : n < 4294967296) (hp : p < 4294967296)
    (hv : v < 18446744073709551616) (hd : d < 18446744073709551616)
    (hs : s < 4294967296) (hf : f < 4294967296) :
    decodeInt32 e (encodeInt32 e n) = n ∧
    decodeFloat32 e (encodeFloat32 e p) = p ∧
    decodeRgba e (encodeRgba e c) = c ∧
    decodeMidi e (encodeMidi e mm) = mm ∧
    decodeUInt64 e (encodeUInt64 e v) = v ∧
    decodeDouble64 e (encodeDouble64 e d) = d ∧
    decodeTimeTag e (encodeTimeTag e s f) = (s, f) := by
  refine ⟨?_, ?_, ?_, ?_, ?_, ?_, ?_⟩
  · cases e <;>
      simp [decodeInt32, encodeInt32, unwire32, wire32, store32, load32,
        byteStructGet32] <;> omega
  · cases e <;>
      simp [decodeFloat32, encodeFloat32, unwire32, wire32, store32, load32,
        byteStructGet32] <;> omega
  · cases e <;> rfl
  · cases e <;> rfl
  · cases e <;>
      simp [decodeUInt64, encodeUInt64, unwire64, wire64, store64, load64,
        byteStructGet64] <;> omega
  · cases e <;>
      simp [decodeDouble64, encodeDouble64, unwire64, wire64, store64, load64,
        byteStructGet64] <;> omega
  · cases e <;>
      simp [decodeTimeTag, encodeTimeTag, loadTimeTag, storeTimeTag, unwire64,
        wire64, store32, load32, byteStructGet64, Prod.ext_iff] <;>
      constructor <;> omega

/-- Witness for `osc_round_trip` at the little-endian configuration with
small concrete values for every view. -/
theorem osc_round_trip_witness :
    decodeInt32 Endianness.little (encodeInt32 Endianness.little 1) = 1 ∧
    decodeFloat32 Endianness.little (encodeFloat32 Endianness.little 2) = 2 ∧
    decodeRgba Endianness.little (encodeRgba Endianness.little ⟨1, 2, 3, 4⟩) =
      ⟨1, 2, 3, 4⟩ ∧
    decodeMidi Endianness.little (encodeMidi Endianness.little ⟨5, 6, 7, 8⟩) =
      ⟨5, 6, 7, 8⟩ ∧
    decodeUInt64 Endianness.little (encodeUInt64 Endianness.little 3) = 3 ∧
    decodeDouble64 Endianness.little (encodeDouble64 Endianness.little 4) = 4 ∧
    decodeTimeTag Endianness.little (encodeTimeTag Endianness.little 5 6) = (5, 6) :=
  osc_round_trip Endianness.little 1 2 3 4 5 6 ⟨1, 2, 3, 4⟩ ⟨5, 6, 7, 8⟩
    (by decide) (by decide) (by decide) (by decide) (by decide) (by decide)

/-- C6: encoding the `int32` value 1 yields the wire bytes
`[0x00, 0x00, 0x00, 0x01]` in both platform configurations. -/
theorem osc_encode_int32_one (e : Endianness) :
    encodeInt32 e 1 = [0, 0, 0, 1] := by
  cases e <;> rfl

/-- C7: `isImmediateTimeTag` is true on the all-zero tag `oscTimeTagZero`
(which is the tag built from `seconds = 0`, `fraction = 0`), and on a tag
built from `(seconds, fraction)` it is true exactly when both are zero. -/
theorem osc_immediate_time_tag (e : Endianness) (s f : Nat)
    (hs : s < 4294967296) (hf : f < 4294967296) :
    isImmediateTimeTag (oscTimeTagZero e) = true ∧
    oscTimeTagZero e = storeTimeTag e 0 0 ∧
    (isImmediateTimeTag (storeTimeTag e s f) = true ↔ s = 0 ∧ f = 0) := by
  refine ⟨?_, ?_, ?_⟩
  · cases e <;> rfl
  · cases e <;> rfl
  · cases e <;> simp [isImmediateTimeTag, storeTimeTag, store32] <;> omega

/-- Witness for `osc_immediate_time_tag` at the little-endian configuration
with `(seconds, fraction) = (0, 0)`. -/
theorem osc_immediate_time_tag_witness :
    isImmediateTimeTag (oscTimeTagZero Endianness.little) = true ∧
    oscTimeTagZero Endianness.little = storeTimeTag Endianness.little 0 0 ∧
    (isImmediateTimeTag (storeTimeTag Endianness.little 0 0) = true ↔
      0 = 0 ∧ 0 = 0) :=
  osc_immediate_time_tag Endianness.little 0 0 (by decide) (by decide)

/-- C8: `OscContentsIsMessage` is true exactly when the first byte is `0x2F`
(`/`), `OscContentsIsBundle` exactly when the first 7 bytes are the ASCII
string `#bundle`; both are false on the empty buffer and on any buffer
shorter than the required prefix. -/
theorem osc_contents_classification :
    OscContentsIsMessage [] = false ∧
    (∀ b t, OscContentsIsMessage (b :: t) = true ↔ b = 0x2F) ∧
    (∀ bs : List Nat, OscContentsIsMessage bs = true ↔ List.take 1 bs = [0x2F]) ∧
    OscContentsIsBundle [] = false ∧
    (∀ bs : List Nat, OscContentsIsBundle bs = true ↔
      List.take 7 bs = [0x23, 0x62, 0x75, 0x6E, 0x64, 0x6C, 0x65]) ∧
    (∀ bs : List Nat, bs.length < 7 → OscContentsIsBundle bs = false) := by
  have hbun : ∀ bs : List Nat, OscContentsIsBundle bs = true ↔
      List.take 7 bs = [0x23, 0x62, 0x75, 0x6E, 0x64, 0x6C, 0x65] := by
    intro bs
    match bs with
    | [] => simp [OscContentsIsBundle]
    | [a] => simp [OscContentsIsBundle]
    | [a, b] => simp [OscContentsIsBundle]
    | [a, b, c] => simp [OscContentsIsBundle]
    | [a, b, c, d] => simp [OscContentsIsBundle]
    | [a, b, c, d, e] => simp [OscContentsIsBundle]
    | [a, b, c, d, e, f] => simp [OscContentsIsBundle]
    | a :: b :: c :: d :: e :: f :: g :: t => simp [OscContentsIsBundle, and_assoc]
  refine ⟨rfl, ?_, ?_, rfl, hbun, ?_⟩
  · intro b t
    simp [OscContentsIsMessage]
  · intro bs
    match bs with
    | [] => simp [OscContentsIsMessage]
    | b :: t => simp [OscContentsIsMessage]
  · intro bs hlen
    cases h1 : OscContentsIsBundle bs with
    | false => rfl
    | true =>
        exfalso
        have h2 := (hbun bs).mp h1
        have h3 := congrArg List.length h2
        simp [List.length_take] at h3
        omega

/-- Witness for `osc_contents_classification`: the message predicate at a
buffer starting with `/`, and the bundle predicate at a 2-byte buffer. -/
theorem osc_contents_classification_witness :
    (OscContentsIsMessage [0x2F, 0x00] = true ↔ (0x2F : Nat) = 0x2F) ∧
    OscContentsIsBundle [0x23, 0x62] = false :=
  ⟨osc_contents_classification.2.1 0x2F [0x00],
   osc_contents_classification.2.2.2.2.2 [0x23, 0x62] (by decide)⟩

/-- C9: every stored or encoded 32-bit argument occupies exactly 4 bytes and
every stored or encoded 64-bit argument exactly 8 bytes, in both platform
configurations: the packed views leave no padding. -/
theorem osc_slot_sizes (e : Endianness) (n v s f : Nat)
    (c : RgbaColour) (mm : MidiMessage) :
    (store32 e n).length = 4 ∧ (storeRgba e c).length = 4 ∧
    (storeMidi e mm).length = 4 ∧ (store64 e v).length = 8 ∧
    (storeTimeTag e s f).length = 8 ∧ (oscTimeTagZero e).length = 8 ∧
    (encodeInt32 e n).length = 4 ∧ (encodeRgba e c).length = 4 ∧
    (encodeMidi e mm).length = 4 ∧ (encodeUInt64 e v).length = 8 ∧
    (encodeTimeTag e s f).length = 8 := by
  cases e <;> exact ⟨rfl, rfl, rfl, rfl, rfl, rfl, rfl, rfl, rfl, rfl, rfl⟩

/-- C10: in both platform configurations, `rgbaColour.red` and
`midiMessage.portID` alias the same physical byte as `byteStruct.byte3` (the
most-significant byte of the `int32` view), and `alpha` / `data2` alias the
same physical byte as `byteStruct.byte0` (the least-significant byte): the
per-endianness swap of the field declaration order keeps every named field
at a fixed numeric-significance position. -/
theorem osc_field_significance_aliasing (e : Endianness) (b0 b1 b2 b3 n : Nat) :
    (loadRgba e [b0, b1, b2, b3]).red = byteStructGet32 e [b0, b1, b2, b3] 3 ∧
    (loadRgba e [b0, b1, b2, b3]).alpha = byteStructGet32 e [b0, b1, b2, b3] 0 ∧
    (loadMidi e [b0, b1, b2, b3]).portID = byteStructGet32 e [b0, b1, b2, b3] 3 ∧
    (loadMidi e [b0, b1, b2, b3]).data2 = byteStructGet32 e [b0, b1, b2, b3] 0 ∧
    storeRgba e (loadRgba e [b0, b1, b2, b3]) = [b0, b1, b2, b3] ∧
    (loadRgba e (store32 e n)).red = n / 16777216 % 256 ∧
    (loadMidi e (store32 e n)).data2 = n % 256 ∧
    byteStructGet32 e (store32 e n) 3 = n / 16777216 % 256 ∧
    byteStructGet32 e (store32 e n) 0 = n % 256 := by
  cases e <;> exact ⟨rfl, rfl, rfl, rfl, rfl, rfl, rfl, rfl, rfl⟩

end Osc99
